import Mathlib

/-!
Verification of the vibe-assist daemon core (state synchronization and
triage engine) against its natural-language specification.

The definitions below are a shallow embedding of the Python sources
`apps/daemon/src/analysis.py`, `apps/daemon/src/daemon.py` and
`apps/daemon/src/watcher.py`.  Calls to the external Analysis Gateway
(the Gemini client) are modelled as explicit outcome parameters: the
embedding is a pure function of the state together with the structured
response (or failure) the gateway produced.
-/

namespace VibeAssist

/-- A tracked issue, as stored in `state["active_issues"]`.  The fast
security path appends issues without a `priority_score`; triage appends
issues carrying one. -/
structure Issue where
  type : String
  description : String
  severity : String
  priority_score : Option Int
deriving DecidableEq, Repr

/-- Schema `CharterItem` from analysis.py. -/
structure CharterItem where
  goal : String
  completed : Bool
  completed_by_commit : String
deriving DecidableEq, Repr

/-- Schema `APIEndpoint` from analysis.py. -/
structure APIEndpoint where
  path : String
  method : String
  purpose : String
deriving DecidableEq, Repr

/-- Schema `KeyFunction` from analysis.py. -/
structure KeyFunction where
  name : String
  location : String
  purpose : String
deriving DecidableEq, Repr

/-- Schema `ComponentInteraction` from analysis.py. -/
structure ComponentInteraction where
  from_component : String
  to_component : String
  interaction_type : String
  description : String
deriving DecidableEq, Repr

/-- Schema `ProjectCharter` from analysis.py: the full charter object the
gateway returns for a deep-path merge.  `key_directories` (a JSON map) is
modelled as an association list. -/
structure ProjectCharter where
  project_name : String
  description : String
  tech_stack : List String
  key_directories : List (String × String)
  charter_items : List CharterItem
  architecture_overview : String
  api_endpoints : List APIEndpoint
  key_functions : List KeyFunction
  component_interactions : List ComponentInteraction
  coding_patterns : List String
  development_setup : String
deriving DecidableEq, Repr

/-- The stored charter dictionary `state["project_charter"]`: the same
fields plus the `initialized` flag. -/
structure Charter where
  initialized : Bool
  project_name : String
  description : String
  tech_stack : List String
  key_directories : List (String × String)
  charter_items : List CharterItem
  architecture_overview : String
  api_endpoints : List APIEndpoint
  key_functions : List KeyFunction
  component_interactions : List ComponentInteraction
  coding_patterns : List String
  development_setup : String
deriving DecidableEq, Repr

/-- A record appended to `state["user_feedback"]["dismissed_issues"]` by
the dismiss action (daemon.py, `submit_feedback`). -/
structure DismissedRecord where
  description : String
  type : String
  dismissed_at : Nat
  note : String
deriving DecidableEq, Repr

/-- A record appended to `state["user_feedback"]["false_positives"]` by
the false-positive action (daemon.py, `submit_feedback`). -/
structure FalsePositiveRecord where
  description : String
  type : String
  severity : String
  marked_at : Nat
  note : String
deriving DecidableEq, Repr

/-- The shared daemon state dictionary from daemon.py (the two
`user_feedback` sub-lists are inlined as fields). -/
structure DaemonState where
  security_score : Int
  active_issues : List Issue
  project_charter : Charter
  last_analyzed_commit : Option String
  dismissed_issues : List DismissedRecord
  false_positives : List FalsePositiveRecord
deriving DecidableEq, Repr

/-- Python `str.split()` with no separator, over a character list: split
on runs of whitespace, never producing an empty fragment.  The second
argument accumulates the current word in reverse. -/
def splitWords : List Char → List Char → List String
  | [], cur => if cur.isEmpty then [] else [String.mk cur.reverse]
  | c :: rest, cur =>
      if c.isWhitespace then
        if cur.isEmpty then splitWords rest []
        else String.mk cur.reverse :: splitWords rest []
      else splitWords rest (c :: cur)

/-- Embedding of `set(s.lower().split())` from Python: the set of lowercased
whitespace-separated words of a string. -/
def wordSet (s : String) : Finset String :=
  (splitWords (s.data.map Char.toLower) []).toFinset

/-- Embedding of `not s.strip()` from Python: the string has no non-whitespace
character. -/
def stripEmpty (s : String) : Bool := s.data.all Char.isWhitespace

/-- The test `len(a & b) / len(a | b) > 0.7`, written exactly over the naturals:
the intersection-over-union ratio of the two word sets exceeds 7/10. -/
def overlapGT70 (a b : Finset String) : Bool :=
  decide (7 * (a ∪ b).card < 10 * (a ∩ b).card)

/-- The test `len(a & b) / len(a | b) > 0.8`, written exactly over the naturals:
the intersection-over-union ratio of the two word sets exceeds 8/10. -/
def overlapGT80 (a b : Finset String) : Bool :=
  decide (8 * (a ∪ b).card < 10 * (a ∩ b).card)

/-- One iteration of the false-positive suppression loop in
`triage_suggestions` (analysis.py): the guards mirror
`if fp_desc and new_suggestion.description` and
`if fp_words and new_words`. -/
def fpMatches (fpDesc candDesc : String) : Bool :=
  if fpDesc != "" && candDesc != "" then
    let fw := wordSet fpDesc
    let nw := wordSet candDesc
    if fw.card != 0 && nw.card != 0 then overlapGT70 fw nw else false
  else false

/-- The whole false-positive suppression stage of `triage_suggestions`:
the candidate description is compared against every stored false-positive
record; any match rejects. -/
def matchesAnyFalsePositive (fps : List FalsePositiveRecord) (candDesc : String) : Bool :=
  fps.any (fun fp => fpMatches fp.description candDesc)

/-- One iteration of the lexical duplicate check (threshold 0.8) used by
the degraded-mode fallbacks of `triage_suggestions`. -/
def dupMatches (existingDesc candDesc : String) : Bool :=
  if existingDesc != "" && candDesc != "" then
    let ew := wordSet existingDesc
    let nw := wordSet candDesc
    if ew.card != 0 && nw.card != 0 then overlapGT80 ew nw else false
  else false

/-- The lexical duplicate check of `triage_suggestions` against the whole
`existing_issues` list. -/
def isLexicalDuplicate (existing : List Issue) (candDesc : String) : Bool :=
  existing.any (fun i => dupMatches i.description candDesc)

/-- Schema `ProactiveSuggestion` from analysis.py: the candidate produced
by screen analysis. -/
structure ProactiveSuggestion where
  has_suggestion : Bool
  suggestion_type : String
  description : String
  severity : String
deriving DecidableEq, Repr

/-- Schema `TriagedSuggestion` from analysis.py. -/
structure TriagedSuggestion where
  type : String
  description : String
  severity : String
  priority_score : Int
deriving DecidableEq, Repr

/-- Schema `SuggestionTriage` from analysis.py: the structured result the
gateway returns for the second triage stage. -/
structure SuggestionTriage where
  suggestions : List TriagedSuggestion
  reasoning : String
deriving DecidableEq, Repr

/-- Outcome of the gateway call inside `triage_suggestions`.
`noClient` is `client is None`; `exception` covers both a raised call and
a response whose JSON fails validation (the `except` block catches both);
`emptyText` is a response with empty `response.text`; `ok` is a parsed
`SuggestionTriage`. -/
inductive TriageGateway where
  | noClient : TriageGateway
  | exception : TriageGateway
  | emptyText : TriageGateway
  | ok : SuggestionTriage → TriageGateway
deriving DecidableEq, Repr

/-- The value `(should_add, triaged_suggestion)` returned by
`triage_suggestions`, together with a flag recording whether control
reached the gateway call (the second triage stage). -/
structure TriageResult where
  should_add : Bool
  triaged : Option Issue
  gateway_called : Bool
deriving DecidableEq, Repr

/-- Shallow embedding of `triage_suggestions` (analysis.py).  The gateway
outcome is an explicit parameter; every branch mirrors the source:
false-positive suppression first, then the no-client lexical fallback
(default priority 3, no severity filter), the parsed-result branch
(admit exactly when the suggestions list is non-empty, taking the first
entry verbatim), the empty-response fallback (High severity only,
priority 4) and the exception fallback (High severity only, lexical
duplicate check, priority 4). -/
def triage_suggestions (sugg : ProactiveSuggestion) (existing_issues : List Issue)
    (false_positives : List FalsePositiveRecord) (gw : TriageGateway) : TriageResult :=
  if matchesAnyFalsePositive false_positives sugg.description then
    ⟨false, none, false⟩
  else
    match gw with
    | .noClient =>
        if isLexicalDuplicate existing_issues sugg.description then ⟨false, none, false⟩
        else
          ⟨true, some ⟨"Proactive - " ++ sugg.suggestion_type, sugg.description,
            sugg.severity, some 3⟩, false⟩
    | .ok r =>
        match r.suggestions with
        | [] => ⟨false, none, true⟩
        | t :: _ =>
            ⟨true, some ⟨t.type, t.description, t.severity, some t.priority_score⟩, true⟩
    | .emptyText =>
        if sugg.severity == "High" then
          ⟨true, some ⟨"Proactive - " ++ sugg.suggestion_type, sugg.description,
            sugg.severity, some 4⟩, true⟩
        else ⟨false, none, true⟩
    | .exception =>
        if sugg.severity != "High" then ⟨false, none, true⟩
        else if isLexicalDuplicate existing_issues sugg.description then ⟨false, none, true⟩
        else
          ⟨true, some ⟨"Proactive - " ++ sugg.suggestion_type, sugg.description,
            sugg.severity, some 4⟩, true⟩

/-- Schema `SecurityIssue` from analysis.py (fast path). -/
structure SecurityIssue where
  type : String
  description : String
  severity : String
deriving DecidableEq, Repr

/-- Shallow embedding of `analyze_fast_path` (analysis.py).  `result` is
the parsed gateway outcome: `some issue` when `response.text` is
non-empty and validates as a `SecurityIssue`; `none` covers an
uninitialized client being checked later, an empty response, a failed
validation, and a raised call — all of which leave the state alone.
On a finding, the score drops by 10 and the issue (without a
priority score) is appended. -/
def analyze_fast_path (clientReady : Bool) (result : Option SecurityIssue)
    (s : DaemonState) : DaemonState :=
  if !clientReady then s
  else
    match result with
    | some issue =>
        { s with
          security_score := s.security_score - 10,
          active_issues := s.active_issues ++
            [⟨issue.type, issue.description, issue.severity, none⟩] }
    | none => s

/-- Appending an admitted triaged suggestion to the active issue list, as
`analyze_screen_proactively` (analysis.py) does after `triage_suggestions`
returns `(True, triaged_suggestion)`.  The security score is untouched. -/
def appendTriagedIssue (s : DaemonState) (iss : Issue) : DaemonState :=
  { s with active_issues := s.active_issues ++ [iss] }

/-- Schema `CharterAlignmentCheck` from analysis.py. -/
structure CharterAlignmentCheck where
  completed_goals : List Int
  reasoning : String
deriving DecidableEq, Repr

/-- Outcome of the deep-path gateway call inside `analyze_deep_path`.
`exception` covers both a raised call and a failed `ProjectCharter`
validation; `emptyText` is an empty `response.text`. -/
inductive DeepGateway where
  | exception : DeepGateway
  | emptyText : DeepGateway
  | ok : ProjectCharter → DeepGateway
deriving DecidableEq, Repr

/-- The wholesale field replacement performed under the lock in
`analyze_deep_path` (analysis.py): every charter field is overwritten by
the proposal (including `charter_items`, taken verbatim from the
gateway); only `initialized` survives, because `dict.update` leaves keys
absent from the argument untouched. -/
def mergeCharter (c : Charter) (p : ProjectCharter) : Charter :=
  { initialized := c.initialized,
    project_name := p.project_name,
    description := p.description,
    tech_stack := p.tech_stack,
    key_directories := p.key_directories,
    charter_items := p.charter_items,
    architecture_overview := p.architecture_overview,
    api_endpoints := p.api_endpoints,
    key_functions := p.key_functions,
    component_interactions := p.component_interactions,
    coding_patterns := p.coding_patterns,
    development_setup := p.development_setup }

/-- Marking one alignment-check index complete, mirroring
`if 0 <= goal_index < len(items): items[goal_index].completed = True;
items[goal_index].completed_by_commit = hash` in `analyze_deep_path`.
Out-of-range indices (including negative ones) are ignored. -/
def markCompleted (items : List CharterItem) (idx : Int) (hash : String) :
    List CharterItem :=
  if 0 ≤ idx ∧ idx < (items.length : Int) then
    let old := items.getD idx.toNat ⟨"", false, ""⟩
    items.set idx.toNat { old with completed := true, completed_by_commit := hash }
  else items

/-- The alignment-check loop of `analyze_deep_path`: each returned goal
index is marked complete in order. -/
def applyAlignmentList (items : List CharterItem) (goals : List Int)
    (hash : String) : List CharterItem :=
  goals.foldl (fun acc g => markCompleted acc g hash) items

/-- Shallow embedding of `analyze_deep_path` (analysis.py) as a state
transformer.  Inputs are the commit hash, the computed diff
(`none` when computing it raised), the deep-path gateway outcome, and the
result of `_check_charter_alignment` (`none` when the client is missing,
the response is empty, or the call raised — that helper swallows its own
errors).  The returned flag records whether
`_save_state_and_charter_files` was invoked (persistence).  Branches in
source order: missing client, uninitialized charter, diff error,
whitespace-empty diff (advance the cursor and persist, nothing else),
gateway failure, and the merge path (wholesale field update, cursor
advance, alignment marking, persist). -/
def analyze_deep_path (clientReady : Bool) (commitHash : String)
    (diffResult : Option String) (gw : DeepGateway)
    (alignment : Option CharterAlignmentCheck) (s : DaemonState) :
    DaemonState × Bool :=
  if !clientReady then (s, false)
  else if !s.project_charter.initialized then (s, false)
  else
    match diffResult with
    | none => (s, false)
    | some diff =>
      if stripEmpty diff then
        ({ s with last_analyzed_commit := some commitHash }, true)
      else
        match gw with
        | .exception => (s, false)
        | .emptyText => (s, false)
        | .ok p =>
            let merged : DaemonState :=
              { s with
                project_charter := mergeCharter s.project_charter p,
                last_analyzed_commit := some commitHash }
            let final : DaemonState :=
              match alignment with
              | some al =>
                  if al.completed_goals.isEmpty then merged
                  else
                    { merged with
                      project_charter :=
                        { merged.project_charter with
                          charter_items :=
                            applyAlignmentList merged.project_charter.charter_items
                              al.completed_goals commitHash } }
              | none => merged
            (final, true)

/-- Result of the `/feedback` endpoint (daemon.py, `submit_feedback`). -/
inductive FeedbackOutcome where
  | invalidIndex : FeedbackOutcome
  | dismissed : Nat → FeedbackOutcome
  | markedFalsePositive : Nat → FeedbackOutcome
  | resolved : Nat → FeedbackOutcome
  | unknownAction : String → FeedbackOutcome
deriving DecidableEq, Repr

/-- Shallow embedding of `submit_feedback` (daemon.py).  The index check
`issue_index < 0 or issue_index >= len(active_issues)` happens under the
lock, before anything is read or mutated; the three actions mirror the
source (record the copy, `list.pop(index)`), and an unknown action string
changes nothing. -/
def submit_feedback (issue_index : Int) (action note : String) (now : Nat)
    (s : DaemonState) : DaemonState × FeedbackOutcome :=
  if issue_index < 0 ∨ (s.active_issues.length : Int) ≤ issue_index then
    (s, .invalidIndex)
  else
    let idx := issue_index.toNat
    let issue := s.active_issues.getD idx ⟨"", "", "", none⟩
    if action == "dismiss" then
      let s1 : DaemonState :=
        { s with
          dismissed_issues := s.dismissed_issues ++
            [⟨issue.description, issue.type, now, note⟩],
          active_issues := s.active_issues.eraseIdx idx }
      (s1, .dismissed s1.active_issues.length)
    else if action == "false_positive" then
      let s1 : DaemonState :=
        { s with
          false_positives := s.false_positives ++
            [⟨issue.description, issue.type, issue.severity, now, note⟩],
          active_issues := s.active_issues.eraseIdx idx }
      (s1, .markedFalsePositive s1.active_issues.length)
    else if action == "resolve" then
      let s1 : DaemonState := { s with active_issues := s.active_issues.eraseIdx idx }
      (s1, .resolved s1.active_issues.length)
    else (s, .unknownAction action)

/-- Shallow embedding of the `/issues/clear` endpoint (daemon.py): empty
the active issue list and reset the security score to 100; returns the
number of cleared issues. -/
def clear_issues (s : DaemonState) : DaemonState × Nat :=
  ({ s with active_issues := [], security_score := 100 }, s.active_issues.length)

/-- Shallow embedding of the `DELETE /issues/{index}` endpoint
(daemon.py): remove the issue at a valid index, report an error
otherwise.  The security score is untouched either way. -/
def delete_issue (index : Int) (s : DaemonState) : DaemonState × Bool :=
  if 0 ≤ index ∧ index < (s.active_issues.length : Int) then
    ({ s with active_issues := s.active_issues.eraseIdx index.toNat }, true)
  else (s, false)

/-- The commits strictly after `last` in a linear history given
oldest-first (everything reachable from HEAD but not from `last`): the
content of the git range `last..HEAD`. -/
def commitsAfter (history : List String) (last : String) : List String :=
  (history.dropWhile (fun c => c != last)).drop 1

/-- Embedding of `repo.iter_commits(f"{last}..HEAD")` for a linear history: git yields
the range newest first. -/
def gitRevRange (history : List String) (last : String) : List String :=
  (commitsAfter history last).reverse

/-- The backlog-replay phase of `watcher.start` (watcher.py): if a
persisted `last_analyzed_commit` exists and differs from the current
HEAD (the newest commit of the linear history), list the range
`last..HEAD`, reverse it to oldest-first, and dispatch each commit to
`analyze_deep_path` in that order; the live polling loop begins only
after this list is exhausted.  The returned list is exactly the sequence
of deep-path dispatches made before the loop. -/
def watcherStartupDispatch (history : List String)
    (last_analyzed : Option String) : List String :=
  match last_analyzed with
  | none => []
  | some last =>
      if last != history.getLastD "" then (gitRevRange history last).reverse
      else []

/-- The concatenated fast-path diff text of one watcher tick: the loop
`for item in current_diff: if item.diff: diff_text += item.diff.decode(...)`
over the per-file diff payloads. -/
def diffTextOf (items : List String) : String :=
  (items.filter (fun d => d != "")).foldl (fun acc d => acc ++ d) ""

/-- The fast-path fingerprint state of the watcher loop
(`last_diff_text` in watcher.py). -/
structure WatchState where
  last_diff_text : String
deriving DecidableEq, Repr

/-- One iteration of the fast-path half of the watcher loop
(watcher.py): a tick observes the list of per-file diff payloads.  With a
non-empty item list, analysis is dispatched exactly when the concatenated
text is non-empty and differs from the fingerprint, which is then
updated; with an empty item list the fingerprint is reset to the empty
string.  The returned flag records whether `analyze_fast_path` was
dispatched this tick. -/
def fastPathTick (w : WatchState) (items : List String) : WatchState × Bool :=
  if !items.isEmpty then
    let d := diffTextOf items
    if d != "" && d != w.last_diff_text then (⟨d⟩, true) else (w, false)
  else (⟨""⟩, false)

/-- Iterating `fastPathTick` over a sequence of tick observations,
collecting the per-tick dispatch flags. -/
def runTicks (w : WatchState) (ts : List (List String)) :
    WatchState × List Bool :=
  match ts with
  | [] => (w, [])
  | t :: rest =>
      let step := fastPathTick w t
      let tail := runTicks step.1 rest
      (tail.1, step.2 :: tail.2)

/-! Sample values used by the concrete witnesses below. -/

/-- A stored charter with one completed item, for concrete runs. -/
def charterWithDoneItem : Charter :=
  ⟨true, "vibe-assist", "daemon", ["python"], [], [⟨"ship the MVP", true, "c0"⟩],
    "", [], [], [], [], ""⟩

/-- A daemon state holding `charterWithDoneItem` and three active issues. -/
def sampleState : DaemonState :=
  ⟨100,
   [⟨"bug", "first issue", "High", none⟩,
    ⟨"security", "second issue", "Low", some 4⟩,
    ⟨"error", "third issue", "Medium", none⟩],
   charterWithDoneItem, some "c0", [], []⟩

/-- An AI-proposed charter whose item list reports the sample goal as not
completed. -/
def proposalResettingItem : ProjectCharter :=
  ⟨"vibe-assist", "daemon", ["python"], [], [⟨"ship the MVP", false, ""⟩],
    "", [], [], [], [], ""⟩

/-- C5 (confirmed): a feedback request whose `issue_index` is outside
`[0, length of active_issues)` is answered with the invalid-index error
and the state — in particular `active_issues`, `dismissed_issues` and
`false_positives` — is returned unchanged, for any action string. -/
theorem c5_invalid_index_rejects_unchanged (s : DaemonState) (i : Int)
    (action note : String) (now : Nat)
    (h : i < 0 ∨ (s.active_issues.length : Int) ≤ i) :
    submit_feedback i action note now s = (s, FeedbackOutcome.invalidIndex) := by
  unfold submit_feedback
  rw [if_pos h]

/-- Witness for C5: index 5 against the three-issue sample state. -/
theorem c5_witness :
    ((5 : Int) < 0 ∨ (sampleState.active_issues.length : Int) ≤ 5) ∧
    submit_feedback 5 "dismiss" "" 0 sampleState =
      (sampleState, FeedbackOutcome.invalidIndex) :=
  ⟨Or.inr (by decide),
   c5_invalid_index_rejects_unchanged sampleState 5 "dismiss" "" 0 (Or.inr (by decide))⟩

/-- C6 (confirmed): when the client and charter are ready and the commit
diff computes to a string with no non-whitespace content, the deep path
performs no charter merge — the charter, the issue list and the score are
unchanged — but still advances `last_analyzed_commit` to the commit hash
and invokes persistence. -/
theorem c6_empty_diff_advances_cursor_only (ch diff : String) (gw : DeepGateway)
    (al : Option CharterAlignmentCheck) (s : DaemonState)
    (hinit : s.project_charter.initialized = true)
    (hdiff : stripEmpty diff = true) :
    (analyze_deep_path true ch (some diff) gw al s).1.project_charter =
        s.project_charter ∧
    (analyze_deep_path true ch (some diff) gw al s).1.active_issues =
        s.active_issues ∧
    (analyze_deep_path true ch (some diff) gw al s).1.security_score =
        s.security_score ∧
    (analyze_deep_path true ch (some diff) gw al s).1.last_analyzed_commit =
        some ch ∧
    (analyze_deep_path true ch (some diff) gw al s).2 = true := by
  unfold analyze_deep_path
  simp [hinit, hdiff]

/-- Witness for C6: an all-whitespace diff against the sample state. -/
theorem c6_witness :
    sampleState.project_charter.initialized = true ∧
    stripEmpty " \n " = true ∧
    (analyze_deep_path true "c1" (some " \n ") DeepGateway.exception none
        sampleState).1.project_charter = sampleState.project_charter ∧
    (analyze_deep_path true "c1" (some " \n ") DeepGateway.exception none
        sampleState).1.last_analyzed_commit = some "c1" ∧
    (analyze_deep_path true "c1" (some " \n ") DeepGateway.exception none
        sampleState).2 = true :=
  ⟨by decide, by decide,
   (c6_empty_diff_advances_cursor_only "c1" " \n " DeepGateway.exception none
      sampleState (by decide) (by decide)).1,
   (c6_empty_diff_advances_cursor_only "c1" " \n " DeepGateway.exception none
      sampleState (by decide) (by decide)).2.2.2.1,
   (c6_empty_diff_advances_cursor_only "c1" " \n " DeepGateway.exception none
      sampleState (by decide) (by decide)).2.2.2.2⟩

/-- C10 (confirmed): if the client is not ready or the stored charter is
not initialized, the deep path returns with the state identical and
persistence not invoked — the commit is silently dropped. -/
theorem c10_preinit_commit_dropped (clientReady : Bool) (ch : String)
    (diffResult : Option String) (gw : DeepGateway)
    (al : Option CharterAlignmentCheck) (s : DaemonState)
    (h : clientReady = false ∨ s.project_charter.initialized = false) :
    analyze_deep_path clientReady ch diffResult gw al s = (s, false) := by
  rcases h with h | h
  · subst h
    unfold analyze_deep_path
    simp
  · cases clientReady with
    | false => unfold analyze_deep_path; simp
    | true => unfold analyze_deep_path; simp [h]

/-- Witness for C10: an uninitialized charter swallows the commit. -/
theorem c10_witness :
    ((true = false) ∨
      ({ sampleState with
          project_charter := { sampleState.project_charter with initialized := false }
        } : DaemonState).project_charter.initialized = false) ∧
    analyze_deep_path true "c1" (some "real diff")
        (DeepGateway.ok proposalResettingItem) none
        { sampleState with
          project_charter := { sampleState.project_charter with initialized := false } } =
      ({ sampleState with
          project_charter := { sampleState.project_charter with initialized := false } },
        false) :=
  ⟨Or.inr (by decide),
   c10_preinit_commit_dropped true "c1" (some "real diff")
     (DeepGateway.ok proposalResettingItem) none _ (Or.inr (by decide))⟩

/-- C9 (confirmed): every admitted fast-path security finding lowers the
security score by exactly 10; iterating admissions subtracts 10 each
time, so starting from 100 more than ten findings drive the score
negative (there is no floor).  No other operation raises the score:
feedback (any action, including dismiss, false_positive and resolve),
single-issue deletion and triage admission leave it unchanged, and the
clear-all endpoint resets it to exactly 100. -/
theorem c9_security_score_accounting :
    (∀ (s : DaemonState) (iss : SecurityIssue),
        (analyze_fast_path true (some iss) s).security_score =
          s.security_score - 10) ∧
    (∀ (s : DaemonState) (iss : SecurityIssue) (n : Nat),
        ((fun st => analyze_fast_path true (some iss) st)^[n] s).security_score =
          s.security_score - 10 * (n : Int)) ∧
    (∀ (s : DaemonState) (iss : SecurityIssue) (n : Nat),
        s.security_score = 100 → 10 < n →
        ((fun st => analyze_fast_path true (some iss) st)^[n] s).security_score < 0) ∧
    (∀ (s : DaemonState) (i : Int) (action note : String) (now : Nat),
        (submit_feedback i action note now s).1.security_score =
          s.security_score) ∧
    (∀ (s : DaemonState) (i : Int),
        (delete_issue i s).1.security_score = s.security_score) ∧
    (∀ (s : DaemonState) (iss : Issue),
        (appendTriagedIssue s iss).security_score = s.security_score) ∧
    (∀ s : DaemonState, (clear_issues s).1.security_score = 100) := by
  have hstep : ∀ (s : DaemonState) (iss : SecurityIssue),
      (analyze_fast_path true (some iss) s).security_score =
        s.security_score - 10 := fun _ _ => rfl
  have hiter : ∀ (s : DaemonState) (iss : SecurityIssue) (n : Nat),
      ((fun st => analyze_fast_path true (some iss) st)^[n] s).security_score =
        s.security_score - 10 * (n : Int) := by
    intro s iss n
    induction n with
    | zero => simp
    | succ n ih =>
        rw [Function.iterate_succ_apply', hstep, ih]
        push_cast
        ring
  refine ⟨hstep, hiter, ?_, ?_, ?_, ?_, ?_⟩
  · intro s iss n h100 hn
    rw [hiter, h100]
    omega
  · intro s i action note now
    unfold submit_feedback
    split
    · rfl
    · split
      · rfl
      · split
        · rfl
        · split
          · rfl
          · rfl
  · intro s i
    unfold delete_issue
    split
    · rfl
    · rfl
  · intro s iss
    rfl
  · intro s
    rfl

/-- Witness for C9: eleven findings from a fresh score of 100 make the
score negative. -/
theorem c9_witness :
    sampleState.security_score = 100 ∧ 10 < 11 ∧
    ((fun st => analyze_fast_path true
        (some ⟨"security", "leaked key", "Critical"⟩) st)^[11]
      sampleState).security_score < 0 :=
  ⟨by decide, by decide,
   c9_security_score_accounting.2.2.1 sampleState
     ⟨"security", "leaked key", "Critical"⟩ 11 (by decide) (by decide)⟩

/-- Helper for C4: the empty string has an empty word set. -/
theorem wordSet_empty_string : wordSet "" = ∅ := rfl

/-- C4 (confirmed): whenever some stored false-positive record and the
candidate description have word sets whose intersection-over-union
exceeds 7/10, `triage_suggestions` rejects the candidate outright — it
returns `(False, None)` without reaching the gateway call, whatever the
gateway would have done (including when no client exists). -/
theorem c4_false_positive_suppression (sugg : ProactiveSuggestion)
    (existing : List Issue) (fps : List FalsePositiveRecord)
    (gw : TriageGateway) (fp : FalsePositiveRecord) (hmem : fp ∈ fps)
    (hov : 7 * ((wordSet fp.description ∪ wordSet sugg.description).card) <
           10 * ((wordSet fp.description ∩ wordSet sugg.description).card)) :
    triage_suggestions sugg existing fps gw = ⟨false, none, false⟩ := by
  have hinter : 0 < (wordSet fp.description ∩ wordSet sugg.description).card := by
    omega
  have hfw : 0 < (wordSet fp.description).card :=
    lt_of_lt_of_le hinter (Finset.card_le_card Finset.inter_subset_left)
  have hnw : 0 < (wordSet sugg.description).card :=
    lt_of_lt_of_le hinter (Finset.card_le_card Finset.inter_subset_right)
  have hfd : fp.description ≠ "" := by
    intro he
    rw [he, wordSet_empty_string] at hfw
    simp at hfw
  have hnd : sugg.description ≠ "" := by
    intro he
    rw [he, wordSet_empty_string] at hnw
    simp at hnw
  have hm : fpMatches fp.description sugg.description = true := by
    unfold fpMatches overlapGT70
    simp [bne_iff_ne, hfd, hnd, Nat.pos_iff_ne_zero.mp hfw,
      Nat.pos_iff_ne_zero.mp hnw, hov]
  have hma : matchesAnyFalsePositive fps sugg.description = true := by
    unfold matchesAnyFalsePositive
    rw [List.any_eq_true]
    exact ⟨fp, hmem, hm⟩
  unfold triage_suggestions
  simp [hma]

/-- Witness for C4: the specification example — stored false positive
"hardcoded API key in config.py" against candidate
"hardcoded api key in config.py file" (ratio 5/6 > 7/10), with no client
available. -/
theorem c4_witness :
    (⟨"hardcoded API key in config.py", "security", "High", 0, ""⟩ :
        FalsePositiveRecord) ∈
      [(⟨"hardcoded API key in config.py", "security", "High", 0, ""⟩ :
        FalsePositiveRecord)] ∧
    7 * ((wordSet "hardcoded API key in config.py" ∪
          wordSet "hardcoded api key in config.py file").card) <
      10 * ((wordSet "hardcoded API key in config.py" ∩
             wordSet "hardcoded api key in config.py file").card) ∧
    triage_suggestions
        ⟨true, "security", "hardcoded api key in config.py file", "High"⟩ []
        [⟨"hardcoded API key in config.py", "security", "High", 0, ""⟩]
        TriageGateway.noClient =
      ⟨false, none, false⟩ :=
  ⟨by decide, by decide,
   c4_false_positive_suppression
     ⟨true, "security", "hardcoded api key in config.py file", "High"⟩ []
     [⟨"hardcoded API key in config.py", "security", "High", 0, ""⟩]
     TriageGateway.noClient
     ⟨"hardcoded API key in config.py", "security", "High", 0, ""⟩
     (by decide) (by decide)⟩

/-- Counterexample to C1: the gateway returns a non-empty structured
result whose single suggestion carries `priority_score = 3`, and the
candidate is nevertheless admitted (with that score) — the code never
inspects the score, so the claimed gating does not hold. -/
theorem c1_counterexample :
    triage_suggestions ⟨true, "bug", "stale cache invalidation", "High"⟩ [] []
        (TriageGateway.ok ⟨[⟨"Proactive - bug", "stale cache invalidation",
          "High", 3⟩], "kept it"⟩) =
      ⟨true, some ⟨"Proactive - bug", "stale cache invalidation", "High",
        some 3⟩, true⟩ := by
  decide

/-- C1 (corrected): with a parsed gateway result and no false-positive
match, the candidate is admitted exactly when the suggestions list is
non-empty, and the first suggestion is appended verbatim — its
`priority_score` is copied, never checked against the 4-or-5 gate
(that gate lives only in the prompt text sent to the gateway). -/
theorem c1_admission_is_nonempty_suggestions (sugg : ProactiveSuggestion)
    (existing : List Issue) (fps : List FalsePositiveRecord)
    (r : SuggestionTriage)
    (hfp : matchesAnyFalsePositive fps sugg.description = false) :
    ((triage_suggestions sugg existing fps (TriageGateway.ok r)).should_add = true ↔
        r.suggestions ≠ []) ∧
    (∀ t ts, r.suggestions = t :: ts →
      (triage_suggestions sugg existing fps (TriageGateway.ok r)).triaged =
        some ⟨t.type, t.description, t.severity, some t.priority_score⟩) := by
  constructor
  · cases h : r.suggestions with
    | nil => simp [triage_suggestions, hfp, h]
    | cons t ts => simp [triage_suggestions, hfp, h]
  · intro t ts h
    simp [triage_suggestions, hfp, h]

/-- Witness for C1 (amended): a result carrying one suggestion with
score 5 is admitted verbatim. -/
theorem c1_witness :
    matchesAnyFalsePositive [] "auth bypass in login flow" = false ∧
    ((triage_suggestions ⟨true, "security", "auth bypass in login flow", "High"⟩
        [] [] (TriageGateway.ok ⟨[⟨"Proactive - security",
          "auth bypass in login flow", "Critical", 5⟩], "urgent"⟩)).should_add = true ↔
      ([⟨"Proactive - security", "auth bypass in login flow", "Critical", 5⟩] :
        List TriagedSuggestion) ≠ []) ∧
    (triage_suggestions ⟨true, "security", "auth bypass in login flow", "High"⟩
        [] [] (TriageGateway.ok ⟨[⟨"Proactive - security",
          "auth bypass in login flow", "Critical", 5⟩], "urgent"⟩)).triaged =
      some ⟨"Proactive - security", "auth bypass in login flow", "Critical",
        some 5⟩ :=
  ⟨by decide,
   (c1_admission_is_nonempty_suggestions
      ⟨true, "security", "auth bypass in login flow", "High"⟩ [] []
      ⟨[⟨"Proactive - security", "auth bypass in login flow", "Critical", 5⟩],
        "urgent"⟩ (by decide)).1,
   (c1_admission_is_nonempty_suggestions
      ⟨true, "security", "auth bypass in login flow", "High"⟩ [] []
      ⟨[⟨"Proactive - security", "auth bypass in login flow", "Critical", 5⟩],
        "urgent"⟩ (by decide)).2
     ⟨"Proactive - security", "auth bypass in login flow", "Critical", 5⟩ []
     rfl⟩

/-- Counterexample to C3: with no client at all, a candidate whose
reported severity is "Low" and which matches no existing issue is
admitted with priority 3 — the no-Gateway path never checks severity. -/
theorem c3_counterexample :
    triage_suggestions ⟨true, "bug", "completely new finding", "Low"⟩ [] []
        TriageGateway.noClient =
      ⟨true, some ⟨"Proactive - bug", "completely new finding", "Low",
        some 3⟩, false⟩ := by
  decide

/-- C3 (corrected): past the false-positive stage, the no-Gateway path
admits exactly the candidates that fail the lexical 0.8 duplicate check —
any severity — with priority 3, while the Gateway-exception path admits
exactly the non-duplicate candidates whose severity is "High", with
priority 4. -/
theorem c3_degraded_mode_characterization (sugg : ProactiveSuggestion)
    (existing : List Issue) (fps : List FalsePositiveRecord)
    (hfp : matchesAnyFalsePositive fps sugg.description = false) :
    ((triage_suggestions sugg existing fps TriageGateway.noClient).should_add = true ↔
        isLexicalDuplicate existing sugg.description = false) ∧
    ((triage_suggestions sugg existing fps TriageGateway.noClient).should_add = true →
      (triage_suggestions sugg existing fps TriageGateway.noClient).triaged =
        some ⟨"Proactive - " ++ sugg.suggestion_type, sugg.description,
          sugg.severity, some 3⟩) ∧
    ((triage_suggestions sugg existing fps TriageGateway.exception).should_add = true ↔
        (sugg.severity = "High" ∧
          isLexicalDuplicate existing sugg.description = false)) ∧
    ((triage_suggestions sugg existing fps TriageGateway.exception).should_add = true →
      (triage_suggestions sugg existing fps TriageGateway.exception).triaged =
        some ⟨"Proactive - " ++ sugg.suggestion_type, sugg.description,
          sugg.severity, some 4⟩) := by
  by_cases hsev : sugg.severity = "High" <;>
    cases hdup : isLexicalDuplicate existing sugg.description <;>
      refine ⟨?_, ?_, ?_, ?_⟩ <;>
        simp [triage_suggestions, hfp, hdup, hsev]

/-- Witness for C3 (amended): a fresh Low-severity candidate with no
client is admitted at priority 3. -/
theorem c3_witness :
    matchesAnyFalsePositive [] "completely new finding" = false ∧
    ((triage_suggestions ⟨true, "bug", "completely new finding", "Low"⟩ [] []
        TriageGateway.noClient).should_add = true ↔
      isLexicalDuplicate [] "completely new finding" = false) ∧
    ((triage_suggestions ⟨true, "bug", "completely new finding", "Low"⟩ [] []
        TriageGateway.exception).should_add = true ↔
      (("Low" : String) = "High" ∧
        isLexicalDuplicate [] "completely new finding" = false)) :=
  ⟨by decide,
   (c3_degraded_mode_characterization ⟨true, "bug", "completely new finding", "Low"⟩
      [] [] (by decide)).1,
   (c3_degraded_mode_characterization ⟨true, "bug", "completely new finding", "Low"⟩
      [] [] (by decide)).2.2.1⟩

/-- Counterexample to C2: the stored charter marks "ship the MVP"
completed (by commit c0), the AI proposal reports the same goal as not
completed, and after the deep-path merge (alignment check returning
nothing) the stored flag has been reset to false — completion is not
preserved by the code, only requested from the gateway in prompt text. -/
theorem c2_counterexample :
    sampleState.project_charter.charter_items =
      [⟨"ship the MVP", true, "c0"⟩] ∧
    (analyze_deep_path true "c1" (some "+ real change")
        (DeepGateway.ok proposalResettingItem) none
        sampleState).1.project_charter.charter_items =
      [⟨"ship the MVP", false, ""⟩] := by
  decide

/-- The goal indices the alignment step will mark, from the optional
`CharterAlignmentCheck` (none when the check failed or returned
nothing). -/
def alignGoals : Option CharterAlignmentCheck → List Int
  | some al => al.completed_goals
  | none => []

/-- Helper for C2: marking one alignment index never resets a completed
flag at any position. -/
theorem markCompleted_preserves_completed (items : List CharterItem)
    (g : Int) (ch : String) (i : Nat)
    (h : (items.getD i ⟨"", false, ""⟩).completed = true) :
    ((markCompleted items g ch).getD i ⟨"", false, ""⟩).completed = true := by
  simp only [List.getD_eq_getElem?_getD] at h ⊢
  unfold markCompleted
  split
  · rename_i hrange
    by_cases hig : g.toNat = i
    · subst hig
      have hlt : g.toNat < items.length := by
        rcases hrange with ⟨h0, h1⟩
        omega
      simp [List.getElem?_set_self hlt]
    · simp [List.getElem?_set_ne hig]
      exact h
  · exact h

/-- Helper for C2: the whole alignment loop never resets a completed
flag at any position. -/
theorem applyAlignmentList_preserves_completed (goals : List Int)
    (items : List CharterItem) (ch : String) (i : Nat)
    (h : (items.getD i ⟨"", false, ""⟩).completed = true) :
    ((applyAlignmentList items goals ch).getD i ⟨"", false, ""⟩).completed = true := by
  induction goals generalizing items with
  | nil => exact h
  | cons g gs ih =>
      have hstep := markCompleted_preserves_completed items g ch i h
      unfold applyAlignmentList at ih ⊢
      simp only [List.foldl_cons]
      exact ih _ hstep

/-- C2 (corrected): a successful deep-path merge replaces `charter_items`
wholesale with the proposed list and then runs the alignment marking over
it — so the resulting items are exactly the proposal after alignment, a
stored `completed=true` flag survives only if the proposal itself carries
it, and the alignment step is the monotone part: it can set `completed`
to true but never reset a completed item to false. -/
theorem c2_merge_and_alignment_shape :
    (∀ (p : ProjectCharter) (al : Option CharterAlignmentCheck)
        (ch diff : String) (s : DaemonState),
        s.project_charter.initialized = true → stripEmpty diff = false →
        (analyze_deep_path true ch (some diff) (DeepGateway.ok p) al
            s).1.project_charter.charter_items =
          applyAlignmentList p.charter_items (alignGoals al) ch) ∧
    (∀ (items : List CharterItem) (goals : List Int) (ch : String) (i : Nat),
        (items.getD i ⟨"", false, ""⟩).completed = true →
        ((applyAlignmentList items goals ch).getD i ⟨"", false, ""⟩).completed =
          true) := by
  constructor
  · intro p al ch diff s hinit hdiff
    unfold analyze_deep_path
    simp only [hinit, hdiff, Bool.not_true, Bool.false_eq_true, if_false,
      ite_false, ite_true, Bool.not_false]
    cases al with
    | none => simp [alignGoals, mergeCharter, applyAlignmentList]
    | some a =>
        by_cases hg : a.completed_goals.isEmpty
        · have hnil : a.completed_goals = [] := by
            simpa using hg
          simp [hg, hnil, alignGoals, mergeCharter, applyAlignmentList]
        · simp [hg, alignGoals, mergeCharter]
  · exact fun items goals ch i h =>
      applyAlignmentList_preserves_completed goals items ch i h

/-- Witness for C2 (amended): a proposal that keeps the flag set stays
completed through merge plus alignment. -/
theorem c2_witness :
    sampleState.project_charter.initialized = true ∧
    stripEmpty "+ real change" = false ∧
    (analyze_deep_path true "c1" (some "+ real change")
        (DeepGateway.ok { proposalResettingItem with
          charter_items := [⟨"ship the MVP", true, "c0"⟩] })
        (some ⟨[0], "done"⟩) sampleState).1.project_charter.charter_items =
      applyAlignmentList [⟨"ship the MVP", true, "c0"⟩]
        (alignGoals (some ⟨[0], "done"⟩)) "c1" ∧
    (([⟨"ship the MVP", true, "c0"⟩] :
        List CharterItem).getD 0 ⟨"", false, ""⟩).completed = true ∧
    ((applyAlignmentList [⟨"ship the MVP", true, "c0"⟩] [0] "c1").getD 0
        ⟨"", false, ""⟩).completed = true :=
  ⟨by decide, by decide,
   c2_merge_and_alignment_shape.1
     { proposalResettingItem with charter_items := [⟨"ship the MVP", true, "c0"⟩] }
     (some ⟨[0], "done"⟩) "c1" "+ real change" sampleState (by decide) (by decide),
   by decide,
   c2_merge_and_alignment_shape.2 [⟨"ship the MVP", true, "c0"⟩] [0] "c1" 0
     (by decide)⟩

/-- Helper for C7: dropping while unequal reaches the first occurrence. -/
theorem dropWhile_bne_eq_drop_indexOf (l : List String) (a : String)
    (h : a ∈ l) :
    l.dropWhile (fun c => c != a) = l.drop (l.indexOf a) := by
  induction l with
  | nil => cases h
  | cons x xs ih =>
      by_cases hx : x = a
      · subst hx
        simp [List.dropWhile_cons, List.indexOf_cons_self]
      · have hxa : (x != a) = true := bne_iff_ne.mpr hx
        have hmem : a ∈ xs := by
          cases h with
          | head => exact absurd rfl hx
          | tail _ htl => exact htl
        rw [List.dropWhile_cons, if_pos hxa, List.indexOf_cons_ne _ hx,
          List.drop_succ_cons]
        exact ih hmem

/-- Helper for C7: the backlog replay, for a linear history given
oldest-first whose newest entry is HEAD, dispatches exactly the commits
strictly after the persisted cursor. -/
theorem watcherStartupDispatch_eq_drop (history : List String) (last : String)
    (hmem : last ∈ history) (hne : last ≠ history.getLastD "") :
    watcherStartupDispatch history (some last) =
      history.drop (history.indexOf last + 1) := by
  have hbne : (last != history.getLastD "") = true := bne_iff_ne.mpr hne
  simp only [watcherStartupDispatch, gitRevRange, commitsAfter, hbne, if_true,
    List.reverse_reverse]
  rw [dropWhile_bne_eq_drop_indexOf history last hmem, List.drop_drop]

/-- C7 (confirmed): at watcher startup with a persisted cursor that is
present in the (duplicate-free, oldest-first) history and differs from
HEAD, every commit lying strictly between the cursor and HEAD occurs
exactly once in the pre-loop deep-path dispatch sequence, and that
sequence is a suffix of the history — i.e. the dispatches run in
oldest-first order before live polling begins.  (The sequence also ends
with HEAD itself, which the claim does not forbid.) -/
theorem c7_backlog_replay (history : List String) (last : String)
    (hnd : history.Nodup) (hmem : last ∈ history)
    (hne : last ≠ history.getLastD "") :
    (∀ c : String,
        history.indexOf last < history.indexOf c →
        history.indexOf c + 1 < history.length →
        (watcherStartupDispatch history (some last)).count c = 1) ∧
    (watcherStartupDispatch history (some last)).IsSuffix history := by
  have hdl := watcherStartupDispatch_eq_drop history last hmem hne
  constructor
  · intro c hlt hlen
    rw [hdl]
    have hjlen : history.indexOf c < history.length := by omega
    have hdroplen :
        history.indexOf c - (history.indexOf last + 1) <
          (history.drop (history.indexOf last + 1)).length := by
      rw [List.length_drop]
      omega
    have hidx :
        history.indexOf last + 1 +
          (history.indexOf c - (history.indexOf last + 1)) =
          history.indexOf c := by omega
    have hget :
        (history.drop (history.indexOf last + 1)).get
          ⟨history.indexOf c - (history.indexOf last + 1), hdroplen⟩ = c := by
      rw [List.get_eq_getElem, List.getElem_drop]
      simp only [hidx]
      exact List.getElem_indexOf hjlen
    have hmemdrop : c ∈ history.drop (history.indexOf last + 1) := by
      rw [← hget]
      exact List.get_mem _ _ _
    have hnodup : (history.drop (history.indexOf last + 1)).Nodup :=
      List.Nodup.sublist (List.drop_sublist _ _) hnd
    exact List.count_eq_one_of_mem hnodup hmemdrop
  · rw [hdl]
    exact ⟨history.take (history.indexOf last + 1), List.take_append_drop _ _⟩

/-- Witness for C7: history c1→c2→c3→c4 with persisted cursor c1 — the
strictly-between commits c2 and c3 are each dispatched once, in order,
and the dispatch sequence is the history suffix [c2, c3, c4]. -/
theorem c7_witness :
    (["c1", "c2", "c3", "c4"] : List String).Nodup ∧
    "c1" ∈ (["c1", "c2", "c3", "c4"] : List String) ∧
    "c1" ≠ (["c1", "c2", "c3", "c4"] : List String).getLastD "" ∧
    (watcherStartupDispatch ["c1", "c2", "c3", "c4"] (some "c1")).count "c2" = 1 ∧
    (watcherStartupDispatch ["c1", "c2", "c3", "c4"] (some "c1")).count "c3" = 1 ∧
    (watcherStartupDispatch ["c1", "c2", "c3", "c4"] (some "c1")).IsSuffix
      ["c1", "c2", "c3", "c4"] :=
  ⟨by decide, by decide, by decide,
   (c7_backlog_replay ["c1", "c2", "c3", "c4"] "c1" (by decide) (by decide)
      (by decide)).1 "c2" (by decide) (by decide),
   (c7_backlog_replay ["c1", "c2", "c3", "c4"] "c1" (by decide) (by decide)
      (by decide)).1 "c3" (by decide) (by decide),
   (c7_backlog_replay ["c1", "c2", "c3", "c4"] "c1" (by decide) (by decide)
      (by decide)).2⟩

/-- Counterexample to C8: tick 1 observes diff text "a" (dispatching);
tick 2 observes a non-empty diff item list whose concatenated text is
empty — the claim says an empty observed diff text clears the
fingerprint, but it stays "a"; tick 3 re-observes the identical text "a"
and does not dispatch.  The dispatch flags are [true, false, false]
where the claim requires a dispatch on tick 3. -/
theorem c8_counterexample :
    diffTextOf [""] = "" ∧
    runTicks ⟨""⟩ [["a"], [""], ["a"]] = (⟨"a"⟩, [true, false, false]) := by
  decide

/-- Helper for C8: once the fingerprint equals the observed text, further
ticks with non-empty item lists and the same text never dispatch and
leave the fingerprint alone. -/
theorem runTicks_steady (d : String) (ts : List (List String))
    (hts : ∀ t ∈ ts, t ≠ [] ∧ diffTextOf t = d) :
    runTicks ⟨d⟩ ts = (⟨d⟩, List.replicate ts.length false) := by
  induction ts with
  | nil => rfl
  | cons t rest ih =>
      obtain ⟨htne, htd⟩ := hts t (by simp)
      have hstep : fastPathTick ⟨d⟩ t = (⟨d⟩, false) := by
        unfold fastPathTick
        simp [htne, htd]
      have hrest : runTicks ⟨d⟩ rest = (⟨d⟩, List.replicate rest.length false) :=
        ih (fun u hu => hts u (by simp [hu]))
      simp [runTicks, hstep, hrest, List.replicate_succ]

/-- C8 (corrected): the fingerprint is cleared only when the observed
diff ITEM LIST is empty — `(fastPathTick w []).1 = ⟨""⟩` — not whenever
the concatenated diff text is empty (a non-empty item list with empty
text neither dispatches nor clears, as the counterexample shows).  With
that reading, fingerprinting is idempotent: over any run of consecutive
ticks with non-empty item lists all observing the same non-empty text
`d`, starting from a fingerprint different from `d`, exactly the first
tick dispatches, the fingerprint ends at `d`, and after a clearing tick
a tick re-observing `d` dispatches again. -/
theorem c8_fingerprint_idempotent (w : WatchState) (d : String)
    (ts : List (List String)) (hd : d ≠ "") (hw : w.last_diff_text ≠ d)
    (hts : ∀ t ∈ ts, t ≠ [] ∧ diffTextOf t = d) (hne : ts ≠ []) :
    (runTicks w ts).2 = true :: List.replicate (ts.length - 1) false ∧
    (runTicks w ts).1 = ⟨d⟩ ∧
    (fastPathTick w []).1 = ⟨""⟩ ∧
    (∀ t, t ≠ [] → diffTextOf t = d → (fastPathTick ⟨""⟩ t).2 = true) := by
  obtain ⟨t, rest, rfl⟩ := List.exists_cons_of_ne_nil hne
  obtain ⟨htne, htd⟩ := hts t (by simp)
  have hfire : fastPathTick w t = (⟨d⟩, true) := by
    unfold fastPathTick
    simp [htne, htd, hd, Ne.symm hw]
  have hrest : runTicks ⟨d⟩ rest = (⟨d⟩, List.replicate rest.length false) :=
    runTicks_steady d rest (fun u hu => hts u (by simp [hu]))
  refine ⟨?_, ?_, rfl, ?_⟩
  · simp [runTicks, hfire, hrest]
  · simp [runTicks, hfire, hrest]
  · intro u hune hud
    unfold fastPathTick
    simp [hune, hud, hd]

/-- Witness for C8 (amended): two consecutive ticks with the same
non-empty diff text "x" dispatch exactly once, on the first tick. -/
theorem c8_witness :
    ("x" : String) ≠ "" ∧
    (WatchState.mk "").last_diff_text ≠ "x" ∧
    ((["x"] : List String) ≠ [] ∧ diffTextOf ["x"] = "x") ∧
    (runTicks ⟨""⟩ [["x"], ["x"]]).2 = true :: List.replicate 1 false ∧
    (runTicks ⟨""⟩ [["x"], ["x"]]).1 = ⟨"x"⟩ ∧
    (fastPathTick ⟨""⟩ []).1 = ⟨""⟩ :=
  ⟨by decide, by decide, ⟨by decide, by decide⟩,
   (c8_fingerprint_idempotent ⟨""⟩ "x" [["x"], ["x"]] (by decide) (by decide)
      (by decide) (by decide)).1,
   (c8_fingerprint_idempotent ⟨""⟩ "x" [["x"], ["x"]] (by decide) (by decide)
      (by decide) (by decide)).2.1,
   (c8_fingerprint_idempotent ⟨""⟩ "x" [["x"], ["x"]] (by decide) (by decide)
      (by decide) (by decide)).2.2.1⟩

end VibeAssist
